import Mathlib

/-!
Verification of the `require-options-object` static-analysis rule.

The development shallowly embeds `src/require-options-object.ts`: the rule
that flags function-like nodes (function declarations, function expressions,
arrow functions) with more than three parameters and proposes a rewrite into
a single destructured options-object parameter.

Modelling conventions:
* Syntax-tree nodes carry their source range (as character offsets) and, where
  the rule consults `sourceCode.getText`, the exact source substring for the
  node.  Type annotations are carried as the source text of the annotation
  (the result of `sourceCode.getText(typeAnnotation.typeAnnotation)`).
* JavaScript string truthiness (`null` and `""` are falsy) is modelled
  explicitly wherever the rule branches on a possibly-null string.
* Only the parent-node facts the rule inspects are modelled, as a `Parent`
  summary: the parent's node type together with the fields the rule reads
  (whether the declared identifier of a `VariableDeclarator` has a type
  annotation, whether a `CallExpression` parent has a member-access callee
  with an identifier property of a given name and whether the node occurs
  among the call's arguments, and so on).
-/

namespace RequireOptionsObject

/-- A source range `[start, stop)` in character offsets, as on ESLint nodes. -/
structure SrcRange where
  start : Nat
  stop : Nat
deriving DecidableEq, Repr

/-- The value of a `Literal` node, discriminated the way `typeof` sees it:
string, number, boolean, `null`, or anything else (RegExp, bigint). -/
inductive LitValue where
  | str (s : String)
  | num (n : Int)
  | boolV (b : Bool)
  | nullV
  | otherV
deriving DecidableEq, Repr

/-- What the rule observes about an expression node (a parameter's default
value): its source text and whether it is a `Literal`, with the literal's
value. -/
inductive ExprKind where
  | literal (v : LitValue)
  | nonLiteral
deriving DecidableEq, Repr

/-- An expression node: source text plus the observed kind. -/
structure Expr where
  text : String
  kind : ExprKind
deriving DecidableEq, Repr

/-- A formal parameter node (`TSESTree.Parameter` subset).  Every constructor
carries the node's source range and full source text (what
`sourceCode.getText(p)` returns; for a `TSParameterProperty` this text
includes the access modifier).  `identifier` carries the name, the source
text of its type annotation when present, and its `optional` flag.
`objectPattern`, `arrayPattern` and `restElement` record whether the pattern
itself carried a type annotation (the rule never reads it, but the spec's
notion of "carried an explicit annotation" does). -/
inductive Param where
  | identifier (range : SrcRange) (text : String)
      (name : String) (tyAnno : Option String) (optional : Bool)
  | assignmentPattern (range : SrcRange) (text : String)
      (left : Param) (right : Expr)
  | tsParameterProperty (range : SrcRange) (text : String) (parameter : Param)
  | objectPattern (range : SrcRange) (text : String) (hasTyAnno : Bool)
  | arrayPattern (range : SrcRange) (text : String) (hasTyAnno : Bool)
  | restElement (range : SrcRange) (text : String) (hasTyAnno : Bool)
  | otherParam (range : SrcRange) (text : String)
deriving DecidableEq, Repr

/-- The node's source range. -/
def Param.range : Param → SrcRange
  | .identifier r _ _ _ _ => r
  | .assignmentPattern r _ _ _ => r
  | .tsParameterProperty r _ _ => r
  | .objectPattern r _ _ => r
  | .arrayPattern r _ _ => r
  | .restElement r _ _ => r
  | .otherParam r _ => r

/-- The node's full source text (`sourceCode.getText(p)`). -/
def Param.text : Param → String
  | .identifier _ t _ _ _ => t
  | .assignmentPattern _ t _ _ => t
  | .tsParameterProperty _ t _ => t
  | .objectPattern _ t _ => t
  | .arrayPattern _ t _ => t
  | .restElement _ t _ => t
  | .otherParam _ t => t

/-- Whether the parameter is a plain `Identifier` node. -/
def Param.isIdent : Param → Bool
  | .identifier _ _ _ _ _ => true
  | _ => false

/-- Whether the original parameter carried an explicit type annotation in the
source: on an identifier, the annotation of the identifier; on an assignment
pattern, the annotation of its left-hand side; on a parameter property, the
annotation inside the wrapper; on a destructuring or rest pattern, the
annotation of the pattern itself. -/
def carriesExplicitTy : Param → Bool
  | .identifier _ _ _ tyAnno _ => tyAnno.isSome
  | .assignmentPattern _ _ left _ => carriesExplicitTy left
  | .tsParameterProperty _ _ inner => carriesExplicitTy inner
  | .objectPattern _ _ h => h
  | .arrayPattern _ _ h => h
  | .restElement _ _ h => h
  | .otherParam _ _ => false

/-- What the rule observes about a function-like node's parent. -/
inductive Parent where
  | noParent
  | variableDeclarator (idHasTyAnno : Bool)
  | callExpression (calleeMemberIdentName : Option String) (nodeIsArgument : Bool)
  | property (valueIsNode : Bool) (isMethod : Bool)
  | assignmentExpression (rightIsNode : Bool) (leftIsMemberExpression : Bool)
  | otherParent
deriving DecidableEq, Repr

/-- A function-like node: its ordered parameter list and parent summary. -/
structure FunctionLike where
  params : List Param
  parent : Parent
deriving DecidableEq, Repr

/-- `isStdCallback` from `require-options-object.ts`: the parent is a
`CallExpression` whose callee is a `MemberExpression` with an `Identifier`
property whose name is in `methods`. -/
def isStdCallback (f : FunctionLike) (methods : List String) : Bool :=
  match f.parent with
  | .callExpression (some name) _ => methods.contains name
  | _ => false

/-- `isPropertyCallback` from `require-options-object.ts`: the node is a
non-method object-property value, the right side of a member-expression
assignment, or an argument of a call expression. -/
def isPropertyCallback (f : FunctionLike) : Bool :=
  match f.parent with
  | .noParent => false
  | .property valueIsNode isMethod => valueIsNode && !isMethod
  | .assignmentExpression rightIsNode leftIsMember => rightIsNode && leftIsMember
  | .callExpression _ nodeIsArg => nodeIsArg
  | _ => false

/-- The first guard of `checkParameters`: the parent is a
`VariableDeclarator` whose declared identifier has a type annotation. -/
def isVarDeclTyped (f : FunctionLike) : Bool :=
  match f.parent with
  | .variableDeclarator idHasTyAnno => idHasTyAnno
  | _ => false

/-- The descriptor `getParamInfo` returns: name, default-value node and text,
type-annotation text, optional flag, and whether the parameter had a type
annotation. -/
structure ParamInfo where
  name : String
  defaultNode : Option Expr
  defaultText : Option String
  tyAnno : Option String
  optional : Bool
  hadType : Bool
deriving DecidableEq, Repr

/-- `getParamInfo` from `require-options-object.ts`: unwraps a
`TSParameterProperty` around an identifier; handles a plain identifier; an
`AssignmentPattern` with identifier left-hand side; and otherwise falls back
to the parameter's raw source text as the name. -/
def getParamInfo (p : Param) : ParamInfo :=
  match p with
  | .tsParameterProperty _ _ (.identifier _ _ name tyAnno opt) =>
      ⟨name, none, none, tyAnno, opt, tyAnno.isSome⟩
  | .identifier _ _ name tyAnno opt =>
      ⟨name, none, none, tyAnno, opt, tyAnno.isSome⟩
  | .assignmentPattern _ _ (.identifier _ _ name tyAnno _) right =>
      ⟨name, some right, some right.text, tyAnno, true, tyAnno.isSome⟩
  | q => ⟨q.text, none, none, none, false, false⟩

/-- The literal-default part of `inferType`: a string literal gives
`string`, a number literal `number`, a boolean literal `boolean`, anything
else (including no default) `any`. -/
def inferFromDefault : Option Expr → String
  | some e =>
      match e.kind with
      | .literal (.str _) => "string"
      | .literal (.num _) => "number"
      | .literal (.boolV _) => "boolean"
      | _ => "any"
  | none => "any"

/-- `inferType` from `require-options-object.ts`.  `if (info.typeAnno)` is
JavaScript truthiness: a missing or empty annotation text falls through to
the literal-default inference. -/
def inferType (info : ParamInfo) : String :=
  match info.tyAnno with
  | some t => if t = "" then inferFromDefault info.defaultNode else t
  | none => inferFromDefault info.defaultNode

/-- One entry of the destructuring pattern:
`name = defaultText` when the default text is truthy, else just `name`. -/
def propEntry (i : ParamInfo) : String :=
  match i.defaultText with
  | some d => if d = "" then i.name else i.name ++ " = " ++ d
  | none => i.name

/-- One entry of the composite type block: `name[?]: inferredType`. -/
def typeEntry (i : ParamInfo) : String :=
  i.name ++ (if i.optional then "?" else "") ++ ": " ++ inferType i

/-- The comma-joined property list of the generated pattern. -/
def propsList (params : List Param) : String :=
  String.intercalate ", " (params.map (fun p => propEntry (getParamInfo p)))

/-- The semicolon-joined entries of the generated type block. -/
def typesList (params : List Param) : String :=
  String.intercalate "; " (params.map (fun p => typeEntry (getParamInfo p)))

/-- Whether at least one parameter's descriptor records an explicit type. -/
def hadAnyType (params : List Param) : Bool :=
  (params.map getParamInfo).any (·.hadType)

/-- The replacement text the fix produces: `{ props }: { types }` when at
least one original parameter had a type annotation, else `{ props }`. -/
def buildReplacement (params : List Param) : String :=
  if hadAnyType params then
    "\x7b " ++ propsList params ++ " \x7d: \x7b " ++ typesList params ++ " \x7d"
  else
    "\x7b " ++ propsList params ++ " \x7d"

/-- A fix: a single contiguous text-range replacement, the shape
`fixer.replaceTextRange([start, stop], replacement)` returns. -/
structure Fix where
  rangeStart : Nat
  rangeStop : Nat
  replacement : String
deriving DecidableEq, Repr

/-- The fix attached by `context.report`: replace from the first parameter's
start offset to the last parameter's end offset with the replacement text. -/
def buildFix (params : List Param) : Option Fix :=
  match params.head?, params.getLast? with
  | some first, some last =>
      some ⟨first.range.start, last.range.stop, buildReplacement params⟩
  | _, _ => none

/-- A reported diagnostic: message id, `data.count`, and the attached fix. -/
structure Diagnostic where
  messageId : String
  count : Nat
  fix : Option Fix
deriving DecidableEq, Repr

/-- `checkParameters` from `require-options-object.ts`: skip when the node
initialises an explicitly typed variable, when it is a whitelisted standard
callback, when it is a property callback, or when it has at most three
parameters; otherwise report one diagnostic with the fix. -/
def checkParameters (f : FunctionLike) : Option Diagnostic :=
  if isVarDeclTyped f then none
  else if isStdCallback f ["replaceAll"] then none
  else if isPropertyCallback f then none
  else if f.params.length ≤ 3 then none
  else some ⟨"requireOptions", f.params.length, buildFix f.params⟩

/-- The rule's applicability: none of the three exclusion predicates holds. -/
def inScope (f : FunctionLike) : Bool :=
  !isVarDeclTyped f && !isStdCallback f ["replaceAll"] && !isPropertyCallback f

/-- Apply a single text-range replacement `[start, stop) := repl` to a
source buffer, as the host's `fixer.replaceTextRange` does. -/
def applyEdit (src : List Char) (start stop : Nat) (repl : List Char) : List Char :=
  src.take start ++ repl ++ src.drop stop

/-- Modelled from the spec: the host (not this repository's code) applies
the produced fix to the source text and re-parses.  The replacement text
`\x7b … \x7d` (optionally followed by `: \x7b … \x7d`) parses as a single
object-pattern parameter, optionally with a type annotation, so the fixed
function-like node has exactly one parameter: the object pattern whose text
is the replacement, annotated exactly when a type block was emitted.  The
node's context (parent) is unchanged. -/
def applyFix (f : FunctionLike) : FunctionLike :=
  let start := f.params.head?.elim 0 fun p => p.range.start
  { params := [Param.objectPattern
      ⟨start, start + (buildReplacement f.params).length⟩
      (buildReplacement f.params)
      (hadAnyType f.params)]
    parent := f.parent }

/-! ### Shared example inputs -/

/-- Four plain untyped identifier parameters `a, b, c, d`, with the ranges
they occupy in `function f(a, b, c, d) \x7b\x7d`. -/
def exParamsABCD : List Param :=
  [Param.identifier ⟨11, 12⟩ "a" "a" none false,
   Param.identifier ⟨14, 15⟩ "b" "b" none false,
   Param.identifier ⟨17, 18⟩ "c" "c" none false,
   Param.identifier ⟨20, 21⟩ "d" "d" none false]

/-- A four-parameter function declaration in a neutral context. -/
def exFn : FunctionLike := ⟨exParamsABCD, Parent.otherParent⟩

/-! ### Auxiliary lemmas -/

/-- A parameter that carried no explicit type annotation yields a descriptor
with `hadType = false` (the fallback shapes yield `false` unconditionally). -/
theorem getParamInfo_hadType_of_no_ty (p : Param)
    (h : carriesExplicitTy p = false) : (getParamInfo p).hadType = false := by
  cases p with
  | identifier r t n ty o =>
      simpa [carriesExplicitTy, getParamInfo] using h
  | assignmentPattern r t left right =>
      cases left with
      | identifier r2 t2 n ty o =>
          simpa [carriesExplicitTy, getParamInfo] using h
      | assignmentPattern r2 t2 l2 e2 => rfl
      | tsParameterProperty r2 t2 i2 => rfl
      | objectPattern r2 t2 h2 => rfl
      | arrayPattern r2 t2 h2 => rfl
      | restElement r2 t2 h2 => rfl
      | otherParam r2 t2 => rfl
  | tsParameterProperty r t inner =>
      cases inner with
      | identifier r2 t2 n ty o =>
          simpa [carriesExplicitTy, getParamInfo] using h
      | assignmentPattern r2 t2 l2 e2 => rfl
      | tsParameterProperty r2 t2 i2 => rfl
      | objectPattern r2 t2 h2 => rfl
      | arrayPattern r2 t2 h2 => rfl
      | restElement r2 t2 h2 => rfl
      | otherParam r2 t2 => rfl
  | objectPattern r t h2 => rfl
  | arrayPattern r t h2 => rfl
  | restElement r t h2 => rfl
  | otherParam r t => rfl

/-! ### Claims -/

/-- C1: a function-like node with at most three parameters is never
reported; an in-scope node with more than three parameters is reported with
exactly one diagnostic, message id `requireOptions`, `data.count` equal to
the exact parameter count, and the constructed fix. -/
theorem c1_threshold_and_emission (f : FunctionLike) :
    (f.params.length ≤ 3 → checkParameters f = none) ∧
    (inScope f = true → 3 < f.params.length →
      checkParameters f =
        some ⟨"requireOptions", f.params.length, buildFix f.params⟩) := by
  constructor
  · intro h
    unfold checkParameters
    repeat' split
    all_goals rfl
  · intro hs hlen
    simp only [inScope, Bool.and_eq_true, Bool.not_eq_true'] at hs
    obtain ⟨⟨h1, h2⟩, h3⟩ := hs
    simp [checkParameters, h1, h2, h3, Nat.not_le.mpr hlen]

/-- Witness for C1: `function f(a, b, c, d)` in a neutral context is in
scope, has four parameters, and is reported with `count = 4` and the
untyped-pattern fix. -/
theorem c1_witness :
    inScope exFn = true ∧ 3 < exFn.params.length ∧
    checkParameters exFn =
      some ⟨"requireOptions", 4, some ⟨11, 21, "\x7b a, b, c, d \x7d"⟩⟩ := by
  refine ⟨by decide, by decide, ?_⟩
  have h := (c1_threshold_and_emission exFn).2 (by decide) (by decide)
  rw [h]
  decide

/-- The function `function f(\x7ba, b\x7d, c, d, e) \x7b\x7d`: the first
parameter is a destructuring pattern, and the parameter count exceeds the
threshold. -/
def c2DestructuredFirstFn : FunctionLike :=
  ⟨[Param.objectPattern ⟨11, 17⟩ "\x7ba, b\x7d" false,
    Param.identifier ⟨19, 20⟩ "c" "c" none false,
    Param.identifier ⟨22, 23⟩ "d" "d" none false,
    Param.identifier ⟨25, 26⟩ "e" "e" none false], Parent.otherParent⟩

/-- The function `function g(a, b, c, ...rest) \x7b\x7d`: four parameters,
the last a rest element. -/
def c2RestFn : FunctionLike :=
  ⟨[Param.identifier ⟨11, 12⟩ "a" "a" none false,
    Param.identifier ⟨14, 15⟩ "b" "b" none false,
    Param.identifier ⟨17, 18⟩ "c" "c" none false,
    Param.restElement ⟨20, 27⟩ "...rest" false], Parent.otherParent⟩

/-- C2 (code bug): the rule's own documentation says a function whose first
parameter is a destructuring pattern is not auto-fixed and a function with a
rest parameter is not affected, but `fix` unconditionally returns a
replacement: both functions are reported with an attached fix whose pattern
embeds the raw fallback text. -/
theorem c2_fix_attached_despite_destructured_and_rest :
    checkParameters c2DestructuredFirstFn =
      some ⟨"requireOptions", 4,
        some ⟨11, 26, "\x7b \x7ba, b\x7d, c, d, e \x7d"⟩⟩ ∧
    checkParameters c2RestFn =
      some ⟨"requireOptions", 4,
        some ⟨11, 27, "\x7b a, b, c, ...rest \x7d"⟩⟩ := by
  constructor <;> decide

/-- C3: when no original parameter carried an explicit type annotation, the
replacement is exactly the bare destructuring pattern, with no composite
type block. -/
theorem c3_bare_pattern_when_untyped (params : List Param)
    (h : ∀ p ∈ params, carriesExplicitTy p = false) :
    buildReplacement params = "\x7b " ++ propsList params ++ " \x7d" := by
  have hAny : hadAnyType params = false := by
    rw [hadAnyType, List.any_eq_false]
    intro i hi
    rw [List.mem_map] at hi
    obtain ⟨p, hp, rfl⟩ := hi
    simp [getParamInfo_hadType_of_no_ty p (h p hp)]
  simp [buildReplacement, hAny]

/-- Witness for C3: the untyped parameters `a, b, c, d` produce the bare
pattern `\x7b a, b, c, d \x7d`. -/
theorem c3_witness :
    (∀ p ∈ exParamsABCD, carriesExplicitTy p = false) ∧
    buildReplacement exParamsABCD = "\x7b a, b, c, d \x7d" := by
  refine ⟨by decide, ?_⟩
  rw [c3_bare_pattern_when_untyped exParamsABCD (by decide)]
  decide

/-- C4: a function-like node that is a call argument, the right side of a
member-expression assignment, a non-method object-property value, or the
initializer of an explicitly typed variable is never reported, whatever its
parameter count. -/
theorem c4_callback_and_typed_var_exclusions (f : FunctionLike) :
    (∀ nm, f.parent = Parent.callExpression nm true → checkParameters f = none) ∧
    (f.parent = Parent.assignmentExpression true true → checkParameters f = none) ∧
    (f.parent = Parent.property true false → checkParameters f = none) ∧
    (f.parent = Parent.variableDeclarator true → checkParameters f = none) := by
  refine ⟨?_, ?_, ?_, ?_⟩
  · intro nm h
    cases nm with
    | none => simp [checkParameters, isVarDeclTyped, isStdCallback, isPropertyCallback, h]
    | some s =>
        simp only [checkParameters, isVarDeclTyped, isStdCallback, isPropertyCallback, h]
        split <;> simp
  · intro h
    simp [checkParameters, isVarDeclTyped, isStdCallback, isPropertyCallback, h]
  · intro h
    simp [checkParameters, isVarDeclTyped, isStdCallback, isPropertyCallback, h]
  · intro h
    simp [checkParameters, isVarDeclTyped, h]

/-- Witness for C4: a five-parameter arrow function passed as a call
argument is not reported. -/
theorem c4_witness :
    checkParameters ⟨exParamsABCD, Parent.callExpression none true⟩ = none :=
  (c4_callback_and_typed_var_exclusions _).1 none rfl

/-- C5: re-running the analysis on the fixed function yields no diagnostic:
the rewritten function has exactly one parameter (the object pattern), and
a one-parameter function is below the threshold. -/
theorem c5_fix_idempotent (f : FunctionLike) :
    checkParameters (applyFix f) = none := by
  unfold checkParameters applyFix
  split
  · rfl
  split
  · rfl
  split
  · rfl
  split
  · rfl
  simp_all

/-- C6: the produced fix is the single contiguous replacement whose range
starts at the first parameter's start offset and ends at the last
parameter's end offset, and applying such an edit leaves the source text
before the start and after the end unchanged (so enclosing parentheses and
a return-type annotation, which lie outside that range, are untouched). -/
theorem c6_fix_range_exact (params : List Param) (first last : Param)
    (h1 : params.head? = some first) (h2 : params.getLast? = some last) :
    buildFix params =
      some ⟨first.range.start, last.range.stop, buildReplacement params⟩ ∧
    ∀ (src repl : List Char), first.range.start ≤ src.length →
      (applyEdit src first.range.start last.range.stop repl).take
          first.range.start = src.take first.range.start ∧
      (applyEdit src first.range.start last.range.stop repl).drop
          (first.range.start + repl.length) = src.drop last.range.stop := by
  constructor
  · simp [buildFix, h1, h2]
  · intro src repl hle
    have hlen : (src.take first.range.start).length = first.range.start := by
      simp [List.length_take, Nat.min_eq_left hle]
    constructor
    · unfold applyEdit
      rw [List.append_assoc]
      exact List.take_left' hlen
    · unfold applyEdit
      have hlen2 : (src.take first.range.start ++ repl).length =
          first.range.start + repl.length := by simp [hlen]
      exact List.drop_left' hlen2

/-- The source text `function f(a, b, c, d) \x7b\x7d` as a character buffer. -/
def exSrc : List Char := "function f(a, b, c, d) \x7b\x7d".toList

/-- Witness for C6: on `function f(a, b, c, d)`, the fix spans offsets 11 to
21 (exactly `a, b, c, d`), and applying an edit there preserves the prefix
`function f(` and the suffix `) \x7b\x7d`. -/
theorem c6_witness :
    buildFix exParamsABCD =
      some ⟨11, 21, buildReplacement exParamsABCD⟩ ∧
    (applyEdit exSrc 11 21 (buildReplacement exParamsABCD).toList).take 11 =
      exSrc.take 11 ∧
    (applyEdit exSrc 11 21 (buildReplacement exParamsABCD).toList).drop
      (11 + (buildReplacement exParamsABCD).toList.length) = exSrc.drop 21 := by
  obtain ⟨ha, hb⟩ := c6_fix_range_exact exParamsABCD
    (Param.identifier ⟨11, 12⟩ "a" "a" none false)
    (Param.identifier ⟨20, 21⟩ "d" "d" none false)
    (by decide) (by decide)
  obtain ⟨hc, hd⟩ := hb exSrc (buildReplacement exParamsABCD).toList (by decide)
  exact ⟨ha, hc, hd⟩

/-- C7: precedence of the emitted type text — a non-empty explicit
annotation is used verbatim (also when a default is present); otherwise a
string/number/boolean literal default yields `string`/`number`/`boolean`;
otherwise (no default, or a non-literal default) the unknown-type marker
`any` is emitted. -/
theorem c7_type_inference_precedence :
    (∀ (r : SrcRange) (txt name t : String) (opt : Bool), t ≠ "" →
      inferType (getParamInfo (.identifier r txt name (some t) opt)) = t) ∧
    (∀ (r rl : SrcRange) (txt tl name t : String) (opt : Bool) (e : Expr),
      t ≠ "" →
      inferType (getParamInfo
        (.assignmentPattern r txt (.identifier rl tl name (some t) opt) e)) = t) ∧
    (∀ (r rl : SrcRange) (txt tl name et s : String) (opt : Bool),
      inferType (getParamInfo
        (.assignmentPattern r txt (.identifier rl tl name none opt)
          ⟨et, .literal (.str s)⟩)) = "string") ∧
    (∀ (r rl : SrcRange) (txt tl name et : String) (n : Int) (opt : Bool),
      inferType (getParamInfo
        (.assignmentPattern r txt (.identifier rl tl name none opt)
          ⟨et, .literal (.num n)⟩)) = "number") ∧
    (∀ (r rl : SrcRange) (txt tl name et : String) (b opt : Bool),
      inferType (getParamInfo
        (.assignmentPattern r txt (.identifier rl tl name none opt)
          ⟨et, .literal (.boolV b)⟩)) = "boolean") ∧
    (∀ (r : SrcRange) (txt name : String) (opt : Bool),
      inferType (getParamInfo (.identifier r txt name none opt)) = "any") ∧
    (∀ (r rl : SrcRange) (txt tl name et : String) (opt : Bool),
      inferType (getParamInfo
        (.assignmentPattern r txt (.identifier rl tl name none opt)
          ⟨et, .nonLiteral⟩)) = "any") := by
  refine ⟨?_, ?_, ?_, ?_, ?_, ?_, ?_⟩ <;> intros <;>
    simp [getParamInfo, inferType, inferFromDefault, *]

/-- Witness for C7: `a: number` keeps its annotation text, and the
defaulted, unannotated `w = 'w'` infers `string`. -/
theorem c7_witness :
    inferType (getParamInfo
      (Param.identifier ⟨0, 9⟩ "a: number" "a" (some "number") false)) =
      "number" ∧
    inferType (getParamInfo
      (Param.assignmentPattern ⟨0, 7⟩ "w = 'w'"
        (Param.identifier ⟨0, 1⟩ "w" "w" none false)
        ⟨"'w'", ExprKind.literal (LitValue.str "w")⟩)) = "string" :=
  ⟨c7_type_inference_precedence.1 _ _ _ _ _ (by decide),
   c7_type_inference_precedence.2.2.1 _ _ _ _ _ _ _ _⟩

/-- C8: a function-like node whose parent is a call expression with a
member-access callee naming the whitelisted method `replaceAll` is never
reported, whatever its parameter count. -/
theorem c8_whitelisted_callback (f : FunctionLike) (b : Bool)
    (h : f.parent = Parent.callExpression (some "replaceAll") b) :
    checkParameters f = none := by
  simp [checkParameters, isVarDeclTyped, isStdCallback, h]

/-- Witness for C8: a four-parameter function passed to `replaceAll` is not
reported. -/
theorem c8_witness :
    checkParameters
      ⟨exParamsABCD, Parent.callExpression (some "replaceAll") true⟩ = none :=
  c8_whitelisted_callback _ true rfl

/-- C9: a parameter property wrapping a plain identifier is unwrapped to the
inner identifier's name, type-annotation text and optional flag; and the
generated replacement does not depend on the wrapper's own range or source
text (which is where the access modifier lives), so the modifier is not
carried into the output. -/
theorem c9_promoted_unwraps_and_drops_modifier :
    (∀ (r ri : SrcRange) (txt ti name : String) (tyAnno : Option String)
        (opt : Bool),
      getParamInfo
        (.tsParameterProperty r txt (.identifier ri ti name tyAnno opt)) =
        ⟨name, none, none, tyAnno, opt, tyAnno.isSome⟩) ∧
    (∀ (r1 r2 ri : SrcRange) (t1 t2 ti name : String) (tyAnno : Option String)
        (opt : Bool) (ps qs : List Param),
      buildReplacement (ps ++
        Param.tsParameterProperty r1 t1 (.identifier ri ti name tyAnno opt) :: qs) =
      buildReplacement (ps ++
        Param.tsParameterProperty r2 t2 (.identifier ri ti name tyAnno opt) :: qs)) := by
  constructor
  · intro r ri txt ti name tyAnno opt
    rfl
  · intro r1 r2 ri t1 t2 ti name tyAnno opt ps qs
    simp [buildReplacement, hadAnyType, propsList, typesList, getParamInfo]

/-- C10: a parameter property whose inner parameter is not a plain
identifier is classified by the raw-text fallback: the descriptor's name is
the parameter's full source text (access modifier included), with no
default text, no type annotation, `optional = false` and `hadType = false`,
and the generated pattern entry is that raw text verbatim. -/
theorem c10_promoted_fallback (r : SrcRange) (txt : String) (inner : Param)
    (h : inner.isIdent = false) :
    getParamInfo (.tsParameterProperty r txt inner) =
      ⟨txt, none, none, none, false, false⟩ ∧
    propEntry (getParamInfo (.tsParameterProperty r txt inner)) = txt := by
  cases inner with
  | identifier r2 t2 n ty o => simp [Param.isIdent] at h
  | assignmentPattern r2 t2 l2 e2 => exact ⟨rfl, rfl⟩
  | tsParameterProperty r2 t2 i2 => exact ⟨rfl, rfl⟩
  | objectPattern r2 t2 h2 => exact ⟨rfl, rfl⟩
  | arrayPattern r2 t2 h2 => exact ⟨rfl, rfl⟩
  | restElement r2 t2 h2 => exact ⟨rfl, rfl⟩
  | otherParam r2 t2 => exact ⟨rfl, rfl⟩

/-- The inner parameter of `private x = 5`: an assignment pattern, not a
plain identifier. -/
def c10Inner : Param :=
  Param.assignmentPattern ⟨8, 13⟩ "x = 5"
    (Param.identifier ⟨8, 9⟩ "x" "x" none false)
    ⟨"5", ExprKind.literal (LitValue.num 5)⟩

/-- Witness for C10: `private x = 5` yields the raw-text fallback
descriptor; its pattern entry is the full text `private x = 5`, access
modifier included. -/
theorem c10_witness :
    Param.isIdent c10Inner = false ∧
    getParamInfo (Param.tsParameterProperty ⟨0, 13⟩ "private x = 5" c10Inner) =
      ⟨"private x = 5", none, none, none, false, false⟩ ∧
    propEntry (getParamInfo
      (Param.tsParameterProperty ⟨0, 13⟩ "private x = 5" c10Inner)) =
      "private x = 5" := by
  have h := c10_promoted_fallback ⟨0, 13⟩ "private x = 5" c10Inner (by decide)
  exact ⟨by decide, h.1, h.2⟩

end RequireOptionsObject
